import Mathlib

/-!
Shallow embedding of `btpy.py`, the btpd-daemon client module.

Bytes are modelled as `Nat` (values 0–255) and byte strings as `List Nat`.
Python `str` values produced by the decoder (`message[a:b].decode('utf-8')`)
are modelled by their UTF-8 byte sequences, so a decoded field is a
`List Nat` and a column is a `List (List Nat)`.  Fallible steps — Python
exceptions, and the scanner running on from `find` = -1 on malformed input,
which in the source ends in an exception or garbage — are modelled with
`Option`/`Except`.
-/

/-- ASCII bytes of a string (used to transcribe the source's byte literals). -/
def ascii (s : String) : List Nat := s.data.map Char.toNat

/-- ASCII apostrophe as a one-character string (used to transcribe the
source's string literals that contain one). -/
def apos : String := String.singleton (Char.ofNat 39)

/-- Index of the first occurrence of `pat` in `m` (Python `bytes.find`
relative to the scan start), `none` when absent. -/
def findFrom (m pat : List Nat) : Option Nat :=
  if pat.isPrefixOf m then some 0
  else
    match m with
    | [] => none
    | _ :: t => (findFrom t pat).map (· + 1)

/-- Python `m.find(pat, start)`; `none` stands for Python's -1. -/
def pyFind (m pat : List Nat) (start : Nat) : Option Nat :=
  (findFrom (m.drop start) pat).map (· + start)

/-- Python slicing `m[a:b]` for `0 ≤ a ≤ b` (the only uses in scope). -/
def pySlice (m : List Nat) (a b : Nat) : List Nat := (m.drop a).take (b - a)

def isDigit (b : Nat) : Bool := 48 ≤ b && b ≤ 57

/-- Numeric value of a list of ASCII decimal digits. -/
def digitsVal (l : List Nat) : Nat := l.foldl (fun a d => a * 10 + (d - 48)) 0

/-- Python `int()` on an ASCII byte string: an optional minus sign followed by
at least one digit (the only spellings the daemon protocol produces). -/
def pyInt (l : List Nat) : Option Int :=
  match l with
  | [] => none
  | b :: rest =>
      if b = 45 then
        if rest ≠ [] ∧ rest.all isDigit then some (-(digitsVal rest : Int)) else none
      else if (b :: rest).all isDigit then some ((digitsVal (b :: rest) : Int)) else none

/-- Python `int()` where the source uses the result as a byte count (a
length that Python would accept as negative only to mis-slice from the end
of the buffer is modelled as a decode failure). -/
def pyNat (l : List Nat) : Option Nat :=
  if l ≠ [] ∧ l.all isDigit then some (digitsVal l) else none

/-- ASCII decimal digits of `n`, most significant first; fuel-based so that
it reduces by evaluation, `fuel > n` suffices. -/
def natDigits : Nat → Nat → List Nat
  | 0, _ => []
  | fuel + 1, n => if n < 10 then [48 + n] else natDigits fuel (n / 10) ++ [48 + n % 10]

/-- Python `str(n)` for a natural number, as ASCII bytes. -/
def pyStrNat (n : Nat) : List Nat := natDigits (n + 1) n

/-- Python `str(i)` for an integer, as ASCII bytes. -/
def pyStrInt : Int → List Nat
  | Int.ofNat n => pyStrNat n
  | Int.negSucc m => 45 :: pyStrNat (m + 1)

/-- Python tuple indexing `t[i]`: negative indices count from the end,
out-of-range raises `IndexError` (`none`). -/
def pyIndex (l : List String) (i : Int) : Option String :=
  if 0 ≤ i then l.get? i.toNat
  else if -(l.length : Int) ≤ i then l.get? (l.length - (-i).toNat)
  else none

/-- `struct.pack('i', n)` for `0 ≤ n < 2^31`: four bytes of the native
32-bit int, little-endian on the reference platform. -/
def pack4 (n : Nat) : List Nat :=
  [n % 256, n / 256 % 256, n / 65536 % 256, n / 16777216 % 256]

/-- `struct.unpack('i', b)[0]`: four little-endian bytes as a signed 32-bit
value. -/
def unpack4 (b : List Nat) : Option Int :=
  match b with
  | [b0, b1, b2, b3] =>
      let u := b0 + 256 * b1 + 65536 * b2 + 16777216 * b3
      some (if u < 2147483648 then (u : Int) else (u : Int) - 4294967296)
  | _ => none

/-- One lowercase hexadecimal digit. -/
def hexDigit (n : Nat) : Nat := if n < 10 then 48 + n else 87 + n

/-- `binascii.hexlify`: two lowercase hex digits per byte, as ASCII bytes. -/
def hexlify (l : List Nat) : List Nat :=
  l.flatMap (fun b => [hexDigit (b / 16), hexDigit (b % 16)])

/-- UTF-8 encoding of one Unicode code point. -/
def utf8Char (c : Nat) : List Nat :=
  if c < 128 then [c]
  else if c < 2048 then [192 + c / 64, 128 + c % 64]
  else if c < 65536 then [224 + c / 4096, 128 + c / 64 % 64, 128 + c % 64]
  else [240 + c / 262144, 128 + c / 4096 % 64, 128 + c / 64 % 64, 128 + c % 64]

/-- Python `str.encode()`: UTF-8 bytes of a string (a list of code points). -/
def utf8Encode (s : List Char) : List Nat := s.flatMap (fun c => utf8Char c.toNat)

/-- The `errorCodes` tuple (btpy.py lines 53–65); entry 6 contains the
source's apostrophe, spelled via `apos`. -/
def errorCodes : List String :=
  ["success",
   "communication error",
   "bad content directory",
   "bad torrent",
   "bad torrent entry",
   "bad tracker",
   "couldn" ++ apos ++ "t create content directory",
   "no such key",
   "no such torrent entry",
   "btpd is shutting down",
   "torrent is active",
   "torrent entry exists",
   "torrent is inactive"]

/-- The `dataFormat` dict (lines 67–82), as an association list in source
order: formatting tag to column name. -/
def dataFormat : List (String × String) :=
  [("%#", "number"), ("%n", "title"), ("%t", "state"), ("%d", "dir"),
   ("%h", "hash"), ("%P", "peers"), ("%^", "uprate"), ("%v", "downrate"),
   ("%g", "downed"), ("%u", "uped"), ("%D", "rec"), ("%U", "sent"),
   ("%S", "size"), ("%A", "apieces"), ("%T", "tpieces"), ("%H", "hpieces")]

/-- The `torState` tuple (line 84). -/
def torState : List String := ["I", "+", "-", "L", "S"]

/-- The per-torrent columns held on `self.data`: `Client._clear` installs one
attribute per `dataFormat` value.  Decoded strings are UTF-8 byte lists.  The
source's `rec` column is spelled `recd` (`rec` is reserved in Lean). -/
structure DataT where
  number : List (List Nat)
  title : List (List Nat)
  state : List (List Nat)
  dir : List (List Nat)
  hash : List (List Nat)
  peers : List (List Nat)
  uprate : List (List Nat)
  downrate : List (List Nat)
  downed : List (List Nat)
  uped : List (List Nat)
  recd : List (List Nat)
  sent : List (List Nat)
  size : List (List Nat)
  apieces : List (List Nat)
  tpieces : List (List Nat)
  hpieces : List (List Nat)
deriving DecidableEq, Repr

/-- `Client._clear` (lines 104–107): every column becomes `[]`. -/
def _clear : DataT := ⟨[], [], [], [], [], [], [], [], [], [], [], [], [], [], [], []⟩

/-- `getattr(self.data, name)` for the 16 column names in `dataFormat`'s
range (any other name would be an `AttributeError`). -/
def getColumn (d : DataT) (name : String) : Option (List (List Nat)) :=
  if name = "number" then some d.number
  else if name = "title" then some d.title
  else if name = "state" then some d.state
  else if name = "dir" then some d.dir
  else if name = "hash" then some d.hash
  else if name = "peers" then some d.peers
  else if name = "uprate" then some d.uprate
  else if name = "downrate" then some d.downrate
  else if name = "downed" then some d.downed
  else if name = "uped" then some d.uped
  else if name = "rec" then some d.recd
  else if name = "sent" then some d.sent
  else if name = "size" then some d.size
  else if name = "apieces" then some d.apieces
  else if name = "tpieces" then some d.tpieces
  else if name = "hpieces" then some d.hpieces
  else none

/-- `Client.get_data` (lines 242–273): one column per requested tag, in
request order; an unknown tag (Python `KeyError`) is `none`. -/
def get_data (d : DataT) (tables : List String) : Option (List (List (List Nat))) :=
  tables.mapM (fun x => (dataFormat.lookup x).bind (getColumn d))

/-- `Client._error` (lines 122–126): the response is assumed to start
`d4:codei`; the code is the integer before the first `e` (byte 101) at or
after offset 8, paired with its `errorCodes` entry under Python tuple
indexing.  A failed `find` (Python -1, which would slice `m[8:-1]` into
`int()`) or a failed `int()`/index (a Python exception) is `none`. -/
def _error (m : List Nat) : Option (Int × String) :=
  match pyFind m [101] 8 with
  | none => none
  | some e =>
    match pyInt (pySlice m 8 e) with
    | none => none
    | some code =>
      match pyIndex errorCodes code with
      | none => none
      | some desc => some (code, desc)

/-- One decoded torrent record: the fields one iteration of `Client._decode`
appends, in source order.  `self.decode` (line 95) names the nine
generic-loop columns: size, downed, peers, tpieces, apieces, hpieces, sent,
rec, uprate. -/
structure RecordT where
  number : List Nat
  state : List Nat
  title : List Nat
  size : List Nat
  downed : List Nat
  peers : List Nat
  tpieces : List Nat
  apieces : List Nat
  hpieces : List Nat
  sent : List Nat
  recd : List Nat
  uprate : List Nat
  downrate : List Nat
  hash : List Nat
  dir : List Nat
deriving DecidableEq, Repr

/-- One iteration of the `while True` loop of `Client._decode` (lines
131–160): the record plus the cursor position after the directory field.
The nine-step `for` loop is unrolled in the order of `self.decode`.  Where
the source would run on with `find` = -1 and fail downstream (in `int()` or
`decode()`), this is a decode failure (`none`). -/
def decodeRecord (m : List Nat) (start0 : Nat) : Option (RecordT × Nat) :=
  match pyFind m (ascii "li2ei") start0 with
  | none => none
  | some s1 =>
  match pyFind m (ascii "ei2ei") (s1 + 5) with
  | none => none
  | some e1 =>
  let number := pySlice m (s1 + 5) e1
  match pyFind m (ascii "ei3e") (e1 + 5) with
  | none => none
  | some e2 =>
  let state := pySlice m (e1 + 5) e2
  match pyFind m (ascii ":") (e2 + 4) with
  | none => none
  | some e3 =>
  match pyNat (pySlice m (e2 + 4) e3) with
  | none => none
  | some len =>
  let title := pySlice m (e3 + 1) (e3 + 1 + len)
  match pyFind m (ascii "ei2ei") (e3 + len + 11) with
  | none => none
  | some e5 =>
  let size := pySlice m (e3 + len + 11) e5
  match pyFind m (ascii "ei2ei") (e5 + 5) with
  | none => none
  | some e6 =>
  let downed := pySlice m (e5 + 5) e6
  match pyFind m (ascii "ei2ei") (e6 + 5) with
  | none => none
  | some e7 =>
  let peers := pySlice m (e6 + 5) e7
  match pyFind m (ascii "ei2ei") (e7 + 5) with
  | none => none
  | some e8 =>
  let tpieces := pySlice m (e7 + 5) e8
  match pyFind m (ascii "ei2ei") (e8 + 5) with
  | none => none
  | some e9 =>
  let apieces := pySlice m (e8 + 5) e9
  match pyFind m (ascii "ei2ei") (e9 + 5) with
  | none => none
  | some e10 =>
  let hpieces := pySlice m (e9 + 5) e10
  match pyFind m (ascii "ei2ei") (e10 + 5) with
  | none => none
  | some e11 =>
  let sent := pySlice m (e10 + 5) e11
  match pyFind m (ascii "ei2ei") (e11 + 5) with
  | none => none
  | some e12 =>
  let recd := pySlice m (e11 + 5) e12
  match pyFind m (ascii "ei2ei") (e12 + 5) with
  | none => none
  | some e13 =>
  let uprate := pySlice m (e12 + 5) e13
  match pyFind m (ascii "ei1e20") (e13 + 5) with
  | none => none
  | some e14 =>
  let downrate := pySlice m (e13 + 5) e14
  let hashv := hexlify (pySlice m (e14 + 7) (e14 + 27))
  match pyFind m (ascii ":") (e14 + 30) with
  | none => none
  | some e16 =>
  match pyNat (pySlice m (e14 + 30) e16) with
  | none => none
  | some len2 =>
  let dirv := pySlice m (e16 + 1) (e16 + 1 + len2)
  some (⟨number, state, title, size, downed, peers, tpieces, apieces,
         hpieces, sent, recd, uprate, downrate, hashv, dirv⟩, e16 + 1 + len2)

/-- The appends the loop body performs on `self.data` for one record:
exactly one element onto each of 15 columns; `uped` is never touched. -/
def pushRecord (d : DataT) (r : RecordT) : DataT :=
  { d with
    number := d.number ++ [r.number]
    state := d.state ++ [r.state]
    title := d.title ++ [r.title]
    size := d.size ++ [r.size]
    downed := d.downed ++ [r.downed]
    peers := d.peers ++ [r.peers]
    tpieces := d.tpieces ++ [r.tpieces]
    apieces := d.apieces ++ [r.apieces]
    hpieces := d.hpieces ++ [r.hpieces]
    sent := d.sent ++ [r.sent]
    recd := d.recd ++ [r.recd]
    uprate := d.uprate ++ [r.uprate]
    downrate := d.downrate ++ [r.downrate]
    hash := d.hash ++ [r.hash]
    dir := d.dir ++ [r.dir] }

/-- The `while True` loop of `Client._decode`, with fuel for termination
(the cursor strictly advances, so `m.length + 1` iterations suffice). -/
def decodeLoop : Nat → List Nat → Nat → DataT → Option DataT
  | 0, _, _, _ => none
  | fuel + 1, m, start, d =>
    match decodeRecord m start with
    | none => none
    | some (r, fin) =>
      match pyFind m (ascii "eli") fin with
      | none => some (pushRecord d r)
      | some _ => decodeLoop fuel m fin (pushRecord d r)

/-- `Client._decode` (lines 128–162): the scan starts at offset 18 and
appends onto the columns freshly cleared by `stat`. -/
def _decode (m : List Nat) : Option DataT := decodeLoop (m.length + 1) m 18 _clear

/-- `Client.add`'s request body (lines 173–180): the bytes passed to
`self._send` are `message + data + b'ee'`.  Note that the `content` length
field is `len(directory)` — the number of characters of the Python string —
while the bytes that follow are `directory.encode()`, its UTF-8 encoding;
`data` are the raw torrent-file bytes, whose `len` is a byte count. -/
def addMessage (directory : List Char) (data : List Nat) : List Nat :=
  ascii "l3:addd7:content" ++ pyStrNat directory.length ++ ascii ":" ++
    utf8Encode directory ++ ascii "7:torrent" ++ pyStrNat data.length ++
    ascii ":" ++ data ++ ascii "ee"

/-- `drop`'s per-number body `b'l3:deli' + str(number) + b'ee'` (line 194). -/
def dropMessage (number : Int) : List Nat :=
  ascii "l3:deli" ++ pyStrInt number ++ ascii "ee"

/-- `start`'s per-number body `b'l5:starti' + str(number) + b'ee'` (line 209). -/
def startMessage (number : Int) : List Nat :=
  ascii "l5:starti" ++ pyStrInt number ++ ascii "ee"

/-- `stop`'s per-number body `b'l4:stopi' + str(number) + b'ee'` (line 224). -/
def stopMessage (number : Int) : List Nat :=
  ascii "l4:stopi" ++ pyStrInt number ++ ascii "ee"

/-- `start`'s fixed all-torrents body `b'l9:start-alle'` (line 203). -/
def startAllMessage : List Nat := ascii "l9:start-alle"

/-- `stop`'s fixed all-torrents body `b'18:stop-alle'` (line 218), exactly as
the source spells it: the first byte is the digit 1, not the letter l. -/
def stopAllMessage : List Nat := ascii "18:stop-alle"

/-- `stat`'s fixed request body (line 236). -/
def statMessage : List Nat :=
  ascii "l4:tgetd4:fromi0e4:keysli4ei14ei3ei16ei1ei0ei7ei8ei9ei6ei13ei12ei11ei10ei5ei2eeee"

/-- `Client._send` (lines 109–112): the wire bytes are
`struct.pack('i', len(message)) + message`. -/
def sendFrame (message : List Nat) : List Nat := pack4 message.length ++ message

/-- The framing half of `Client._recv` (lines 114–117): read 4 bytes, unpack
them as the signed native-endian length, then read exactly that many body
bytes from the stream. -/
def recvFrame (stream : List Nat) : Option (Int × List Nat) :=
  match unpack4 (stream.take 4) with
  | none => none
  | some len => some (len, (stream.drop 4).take len.toNat)

/-- A Python argument to `drop`/`start`/`stop`: an int or a string. -/
inductive Arg where
  | int (n : Int)
  | str (s : String)
deriving DecidableEq, Repr

/-- `all(isinstance(x, int) for x in torrents)`, keeping the ints. -/
def allInts : List Arg → Option (List Int)
  | [] => some []
  | Arg.int n :: rest => (allInts rest).map (n :: ·)
  | Arg.str _ :: _ => none

/-- The per-number loop shared by `drop`/`start`/`stop` (e.g. lines 192–197):
send one message per number and collect the `(code, text)` pair `self._recv()`
decodes from each response.  `responses` is the environment: the daemon's
response body to each request, in order.  The result pairs the outcome
(`.error` is a raised Python exception; an exhausted environment stands for a
transport failure) with the list of bodies sent, in order. -/
def commandLoop (mk : Int → List Nat) :
    List Int → List (List Nat) → Except String (List (Int × String)) × List (List Nat)
  | [], _ => (.ok [], [])
  | n :: _, [] => (.error "ConnectionError", [mk n])
  | n :: rest, r :: rs =>
    match _error r with
    | none => (.error "response decode failure", [mk n])
    | some e =>
      let (res, msgs) := commandLoop mk rest rs
      (match res with
       | .ok l => .ok (e :: l)
       | .error s => .error s,
       mk n :: msgs)

/-- `Client.drop` (lines 186–197).  The result is the returned list of error
pairs (`.error` is a raised `TypeError`), paired with the bodies sent. -/
def drop (torrents : List Arg) (responses : List (List Nat)) :
    Except String (List (Int × String)) × List (List Nat) :=
  if torrents.length = 0 then
    (.error "drop() takes exactly 2 arguments (1 given)", [])
  else
    match allInts torrents with
    | none =>
        (.error ("drop() takes arguments of type " ++ apos ++ "int" ++ apos), [])
    | some nums => commandLoop dropMessage nums responses

/-- `Client.start` (lines 199–212).  With the `-a` sentinel anywhere among
the arguments, the single fixed body is sent, no response is read, and the
function falls off the end: Python returns `None`, modelled `.ok none`.
Otherwise the numbered loop returns the list of error pairs (`.ok (some l)`).
The zero-argument and non-int checks raise `TypeError` (`.error`). -/
def start (torrents : List Arg) (responses : List (List Nat)) :
    Except String (Option (List (Int × String))) × List (List Nat) :=
  if torrents.length = 0 then
    (.error "start() takes exactly 2 arguments (1 given)", [])
  else if (Arg.str "-a") ∈ torrents then
    (.ok none, [startAllMessage])
  else
    match allInts torrents with
    | none =>
        (.error ("start() takes arguments " ++ apos ++ "-a" ++ apos ++
                 " or type " ++ apos ++ "int" ++ apos), [])
    | some nums =>
      let (res, msgs) := commandLoop startMessage nums responses
      (res.map some, msgs)

/-- `Client.stop` (lines 214–227): identical in shape to `start`, with the
`stop` token and the fixed body `b'18:stop-alle'` in the `-a` branch. -/
def stop (torrents : List Arg) (responses : List (List Nat)) :
    Except String (Option (List (Int × String))) × List (List Nat) :=
  if torrents.length = 0 then
    (.error "stop() takes exactly 2 arguments (1 given)", [])
  else if (Arg.str "-a") ∈ torrents then
    (.ok none, [stopAllMessage])
  else
    match allInts torrents with
    | none =>
        (.error ("stop() takes arguments " ++ apos ++ "-a" ++ apos ++
                 " or type " ++ apos ++ "int" ++ apos), [])
    | some nums =>
      let (res, msgs) := commandLoop stopMessage nums responses
      (res.map some, msgs)

/-- `Client.stat` (lines 229–240) applied to the daemon's response body:
`self._clear()` resets the columns, `self._recv()` decodes the error
envelope, and `self._decode` runs only when `b'li2'` occurs at or after
offset 18.  The result is the returned error pair, the columns afterwards,
and whether the per-record scanner ran. -/
def stat (response : List Nat) : Option ((Int × String) × DataT × Bool) :=
  match _error response with
  | none => none
  | some error =>
    match pyFind response (ascii "li2") 18 with
    | none => some (error, _clear, false)
    | some _ =>
      match _decode response with
      | none => none
      | some d => some (error, d, true)

/-!
Spec-side encoders: well-formed daemon responses, written from the response
shapes documented in the spec (the error envelope `d4:codei<code>e...` and
the status-list sub-field grammar of §4.3).
-/

/-- A daemon response carrying error code `c`: the fixed 8-byte prefix
`d4:codei`, the decimal code, the terminating `e`, then the rest of the
body. -/
def errEnvelope (c : Int) (rest : List Nat) : List Nat :=
  ascii "d4:codei" ++ pyStrInt c ++ ascii "e" ++ rest

/-- One status-list entry per the documented sub-field grammar, without its
closing list terminator: delimited torrent number, delimited state byte,
length-prefixed title, a skipped single-digit field, the nine generic
numeric fields and the download rate (each encoded here as the digit `0`,
byte 48, between the marker blocks), 20 raw hash bytes, and a
length-prefixed download directory (byte 58 is the `:` of the hash and
directory length prefixes). -/
def statusEntry (num : List Nat) (st : Nat) (title hash dir : List Nat) : List Nat :=
  ascii "li2ei" ++ num ++ ascii "ei2ei" ++ [st] ++ ascii "ei3e" ++
  pyStrNat title.length ++ ascii ":" ++ title ++
  ascii "i2ei0ei2ei" ++
  [48] ++ ascii "ei2ei" ++ [48] ++ ascii "ei2ei" ++ [48] ++ ascii "ei2ei" ++
  [48] ++ ascii "ei2ei" ++ [48] ++ ascii "ei2ei" ++ [48] ++ ascii "ei2ei" ++
  [48] ++ ascii "ei2ei" ++ [48] ++ ascii "ei2ei" ++ [48] ++ ascii "ei2ei" ++
  [48] ++ ascii "ei1e20" ++ [58] ++ hash ++ ascii "i1e" ++
  pyStrNat dir.length ++ ascii ":" ++ dir

/-- A well-formed status response encoding exactly two torrents: the code-0
envelope, the result list of two entries, and the closing terminators. -/
def statusBody2 (n1 : List Nat) (s1 : Nat) (t1 h1 d1 : List Nat)
    (n2 : List Nat) (s2 : Nat) (t2 h2 d2 : List Nat) : List Nat :=
  ascii "d4:codei0e6:resultl" ++
    statusEntry n1 s1 t1 h1 d1 ++ ascii "e" ++
    statusEntry n2 s2 t2 h2 d2 ++ ascii "e" ++ ascii "ee"

/-- The spec's wording for the hash rendering: the lowercase hexadecimal
string of the bytes, two digits per byte. -/
def specHexString (l : List Nat) : String :=
  String.mk (l.flatMap (fun b => [Nat.digitChar (b / 16), Nat.digitChar (b % 16)]))


/-!
Lemmas: decimal spelling round-trips, `findFrom` positioning, and
slice/cursor bookkeeping.
-/

theorem digitsVal_append (l : List Nat) (d : Nat) :
    digitsVal (l ++ [d]) = digitsVal l * 10 + (d - 48) := by
  simp [digitsVal, List.foldl_append]

theorem natDigits_spec : ∀ fuel n, n < fuel →
    natDigits fuel n ≠ [] ∧ (natDigits fuel n).all isDigit = true ∧
      digitsVal (natDigits fuel n) = n := by
  intro fuel
  induction fuel with
  | zero => intro n h; omega
  | succ f ih =>
    intro n h
    by_cases h10 : n < 10
    · refine ⟨by simp [natDigits, h10], ?_, ?_⟩
      · simp [natDigits, h10, isDigit]; omega
      · simp [natDigits, h10, digitsVal]
    · have hdiv : n / 10 < f := by omega
      obtain ⟨hne, hall, hval⟩ := ih (n / 10) hdiv
      refine ⟨by simp [natDigits, h10], ?_, ?_⟩
      · simp only [natDigits, if_neg h10, List.all_append, hall, List.all_cons,
          List.all_nil, Bool.true_and, Bool.and_true, isDigit]
        simp; omega
      · simp only [natDigits, if_neg h10, digitsVal_append, hval]
        omega

theorem pyStrNat_spec (n : Nat) :
    pyStrNat n ≠ [] ∧ (pyStrNat n).all isDigit = true ∧ digitsVal (pyStrNat n) = n :=
  natDigits_spec (n + 1) n (Nat.lt_succ_self n)

theorem pyNat_pyStrNat (n : Nat) : pyNat (pyStrNat n) = some n := by
  obtain ⟨hne, hall, hval⟩ := pyStrNat_spec n
  simp [pyNat, hne, hall, hval]

theorem isDigit_bounds {b : Nat} (h : isDigit b = true) : 48 ≤ b ∧ b ≤ 57 := by
  simp [isDigit] at h; omega

theorem pyStrNat_head_digit (n : Nat) :
    ∀ b ∈ pyStrNat n, 48 ≤ b ∧ b ≤ 57 := by
  intro b hb
  obtain ⟨-, hall, -⟩ := pyStrNat_spec n
  exact isDigit_bounds (List.all_eq_true.mp hall b hb)

theorem pyInt_pyStrInt (c : Int) : pyInt (pyStrInt c) = some c := by
  cases c with
  | ofNat n =>
    obtain ⟨hne, hall, hval⟩ := pyStrNat_spec n
    obtain ⟨b, t, hbt⟩ := List.exists_cons_of_ne_nil hne
    have hb : 48 ≤ b ∧ b ≤ 57 := pyStrNat_head_digit n b (by rw [hbt]; exact List.mem_cons_self b t)
    have : pyStrInt (Int.ofNat n) = b :: t := hbt ▸ rfl
    rw [this, pyInt]
    have hb45 : ¬(b = 45) := by omega
    have hall2 : (b :: t).all isDigit = true := hbt ▸ hall
    have hval2 : digitsVal (b :: t) = n := hbt ▸ hval
    rw [if_neg hb45, if_pos hall2, hval2]
    rfl
  | negSucc m =>
    obtain ⟨hne, hall, hval⟩ := pyStrNat_spec (m + 1)
    show pyInt (45 :: pyStrNat (m + 1)) = some (Int.negSucc m)
    rw [pyInt, if_pos rfl, if_pos ⟨hne, hall⟩, hval]
    rfl

theorem isPrefixOf_append_self (pat rest : List Nat) :
    pat.isPrefixOf (pat ++ rest) = true := by
  rw [List.isPrefixOf_iff_prefix]
  exact pat.prefix_append rest

theorem findFrom_of_prefix (m pat : List Nat) (h : pat.isPrefixOf m = true) :
    findFrom m pat = some 0 := by
  cases m with
  | nil => rw [findFrom]; simp [h]
  | cons a t => rw [findFrom]; simp [h]

theorem findFrom_cons_ne (a : Nat) (t : List Nat) (p : Nat) (pt : List Nat)
    (ha : a ≠ p) :
    findFrom (a :: t) (p :: pt) = (findFrom t (p :: pt)).map (· + 1) := by
  have hpre : (p :: pt).isPrefixOf (a :: t) = false := by
    simp [List.isPrefixOf]
    intro he
    exact absurd he.symm ha
  rw [findFrom, hpre]
  simp

theorem findFrom_skip (pre rest : List Nat) (p : Nat) (pt : List Nat)
    (h : ∀ b ∈ pre, b ≠ p) :
    findFrom (pre ++ rest) (p :: pt) =
      (findFrom rest (p :: pt)).map (· + pre.length) := by
  induction pre with
  | nil => simp
  | cons a t ih =>
    have ha : a ≠ p := h a (List.mem_cons_self a t)
    have ht : ∀ b ∈ t, b ≠ p := fun b hb => h b (List.mem_cons_of_mem a hb)
    rw [List.cons_append, findFrom_cons_ne a (t ++ rest) p pt ha, ih ht,
      Option.map_map]
    rcases findFrom rest (p :: pt) with - | k
    · rfl
    · simp [Function.comp]

theorem findFrom_seg (pre rest : List Nat) (p : Nat) (pt : List Nat)
    (h : ∀ b ∈ pre, b ≠ p) :
    findFrom (pre ++ (p :: pt) ++ rest) (p :: pt) = some pre.length := by
  rw [List.append_assoc, findFrom_skip pre ((p :: pt) ++ rest) p pt h,
    findFrom_of_prefix _ _ (isPrefixOf_append_self (p :: pt) rest)]
  simp

theorem pyFind_at (m : List Nat) (pos : Nat) (pre rest : List Nat)
    (p : Nat) (pt : List Nat)
    (hA : m.drop pos = pre ++ (p :: pt) ++ rest)
    (hpre : ∀ b ∈ pre, b ≠ p) :
    pyFind m (p :: pt) pos = some (pos + pre.length) := by
  rw [pyFind, hA, findFrom_seg pre rest p pt hpre]
  simp [Nat.add_comm]

theorem pySlice_at (m : List Nat) (pos : Nat) (seg rest : List Nat)
    (hA : m.drop pos = seg ++ rest) :
    pySlice m pos (pos + seg.length) = seg := by
  rw [pySlice, hA, Nat.add_sub_cancel_left, List.take_left]

theorem drop_advance (m : List Nat) (pos k : Nat) (seg rest : List Nat)
    (hA : m.drop pos = seg ++ rest) (hk : k = seg.length) :
    m.drop (pos + k) = rest := by
  subst hk
  rw [← List.drop_drop, hA, List.drop_left]

theorem pyStrInt_ne_e (c : Int) : ∀ b ∈ pyStrInt c, b ≠ 101 := by
  intro b hb
  cases c with
  | ofNat n =>
    have := pyStrNat_head_digit n b hb
    omega
  | negSucc m =>
    rcases List.mem_cons.mp hb with h | h
    · omega
    · have := pyStrNat_head_digit (m + 1) b h
      omega

theorem _error_envelope (c : Int) (rest : List Nat) :
    _error (errEnvelope c rest) = (pyIndex errorCodes c).map (fun d => (c, d)) := by
  have he : ascii "e" = [101] := rfl
  have hm : errEnvelope c rest = ascii "d4:codei" ++ (pyStrInt c ++ ([101] ++ rest)) := by
    rw [errEnvelope, he]
    simp [List.append_assoc]
  have hdrop : (errEnvelope c rest).drop 8 = pyStrInt c ++ ([101] ++ rest) := by
    rw [hm]
    have h8 : (ascii "d4:codei").length = 8 := rfl
    rw [← h8, List.drop_left]
  have hfind : pyFind (errEnvelope c rest) [101] 8 = some (8 + (pyStrInt c).length) := by
    apply pyFind_at _ _ _ rest 101 [] ?_ (pyStrInt_ne_e c)
    rw [hdrop]
    simp [List.append_assoc]
  have hslice : pySlice (errEnvelope c rest) 8 (8 + (pyStrInt c).length) = pyStrInt c :=
    pySlice_at _ _ _ ([101] ++ rest) hdrop
  rw [_error, hfind]
  simp only [hslice, pyInt_pyStrInt]
  rcases hpi : pyIndex errorCodes c with - | d <;> simp [hpi]

theorem pyFind_at2 (m : List Nat) (pos : Nat) (pre pat rest : List Nat)
    (p : Nat) (pt : List Nat) (hpat : pat = p :: pt)
    (hA : m.drop pos = pre ++ (pat ++ rest))
    (hpre : ∀ b ∈ pre, b ≠ p) :
    pyFind m pat pos = some (pos + pre.length) := by
  subst hpat
  apply pyFind_at m pos pre rest p pt ?_ hpre
  rw [hA, List.append_assoc]

theorem drop_seg (m : List Nat) (pos k : Nat) (seg rest : List Nat)
    (hA : m.drop pos = seg ++ rest) (hk : k = seg.length) :
    m.drop (pos + k) = rest := by
  subst hk
  rw [← List.drop_drop, hA, List.drop_left]

theorem ascii_li2ei : ascii "li2ei" = 108 :: [105, 50, 101, 105] := by decide

theorem ascii_ei2ei : ascii "ei2ei" = 101 :: [105, 50, 101, 105] := by decide

theorem ascii_ei3e : ascii "ei3e" = 101 :: [105, 51, 101] := by decide

theorem ascii_colon : ascii ":" = 58 :: [] := by decide

theorem ascii_ei1e20 : ascii "ei1e20" = 101 :: [105, 49, 101, 50, 48] := by decide

theorem ascii_eli : ascii "eli" = 101 :: [108, 105] := by decide

/-- The record a `statusEntry` encodes, as `decodeRecord` reads it back:
byte 48 is the digit `0` carried by the ten numeric sub-fields. -/
def entryRecord (num : List Nat) (st : Nat) (title hash dir : List Nat) : RecordT :=
  ⟨num, [st], title, [48], [48], [48], [48], [48], [48], [48], [48], [48],
   [48], hexlify hash, dir⟩

/-- Reading one entry of the documented status grammar: `decodeRecord`
recovers exactly the encoded fields and stops right after the directory. -/
theorem decodeRecord_entry (m : List Nat) (s0 pos : Nat)
    (num : List Nat) (st : Nat) (title hsh dir rest : List Nat)
    (hnum : num.all isDigit = true)
    (hst : st ≠ 101) (hh : hsh.length = 20)
    (hfind1 : pyFind m (ascii "li2ei") s0 = some pos)
    (hdrop : m.drop pos = statusEntry num st title hsh dir ++ rest) :
    decodeRecord m s0 =
      some (entryRecord num st title hsh dir,
            pos + 112 + num.length + (pyStrNat title.length).length + title.length
              + (pyStrNat dir.length).length + dir.length) := by
  have hnumc : ∀ b ∈ num, b ≠ 101 := by
    intro b hb
    have := isDigit_bounds (List.all_eq_true.mp hnum b hb)
    omega
  have hstc : ∀ b ∈ [st], b ≠ 101 := by
    intro b hb
    rw [List.mem_singleton] at hb
    subst hb
    exact hst
  have h48c : ∀ b ∈ ([48] : List Nat), b ≠ 101 := by decide
  have hsnc : ∀ k : Nat, ∀ b ∈ pyStrNat k, b ≠ 58 := by
    intro k b hb
    have := pyStrNat_head_digit k b hb
    omega
  have h0 : m.drop pos =
      ascii "li2ei" ++ (num ++ (ascii "ei2ei" ++ ([st] ++ (ascii "ei3e" ++
      (pyStrNat title.length ++ (ascii ":" ++ (title ++ (ascii "i2ei0ei2ei" ++ ([48] ++
      (ascii "ei2ei" ++ ([48] ++ (ascii "ei2ei" ++ ([48] ++ (ascii "ei2ei" ++ ([48] ++
      (ascii "ei2ei" ++ ([48] ++ (ascii "ei2ei" ++ ([48] ++ (ascii "ei2ei" ++ ([48] ++
      (ascii "ei2ei" ++ ([48] ++ (ascii "ei2ei" ++ ([48] ++ (ascii "ei2ei" ++ ([48] ++
      (ascii "ei1e20" ++ ([58] ++ (hsh ++ (ascii "i1e" ++ (pyStrNat dir.length ++
      (ascii ":" ++ (dir ++ rest)))))))))))))))))))))))))))))))))) := by
    simp only [hdrop, statusEntry, List.append_assoc]
  have a1 : m.drop (pos + 5) =
      num ++ (ascii "ei2ei" ++ ([st] ++ (ascii "ei3e" ++ (pyStrNat title.length ++
      (ascii ":" ++ (title ++ (ascii "i2ei0ei2ei" ++ ([48] ++ (ascii "ei2ei" ++ ([48] ++
      (ascii "ei2ei" ++ ([48] ++ (ascii "ei2ei" ++ ([48] ++ (ascii "ei2ei" ++ ([48] ++
      (ascii "ei2ei" ++ ([48] ++ (ascii "ei2ei" ++ ([48] ++ (ascii "ei2ei" ++ ([48] ++
      (ascii "ei2ei" ++ ([48] ++ (ascii "ei2ei" ++ ([48] ++ (ascii "ei1e20" ++ ([58] ++
      (hsh ++ (ascii "i1e" ++ (pyStrNat dir.length ++ (ascii ":" ++ (dir ++
      rest))))))))))))))))))))))))))))))))) :=
    drop_seg m pos 5 (ascii "li2ei") _ h0 (by decide)
  obtain ⟨E1, hE1⟩ : ∃ x : Nat, x = pos + 5 + num.length := ⟨_, rfl⟩
  have hfind2 : pyFind m (ascii "ei2ei") (pos + 5) = some E1 := by
    rw [hE1]
    exact pyFind_at2 m (pos + 5) num (ascii "ei2ei") _ 101 [105, 50, 101, 105]
      ascii_ei2ei a1 hnumc
  have hsl1 : pySlice m (pos + 5) E1 = num := by
    rw [hE1]
    exact pySlice_at m (pos + 5) num _ a1
  have a2 : m.drop E1 =
      ascii "ei2ei" ++ ([st] ++ (ascii "ei3e" ++ (pyStrNat title.length ++ (ascii ":" ++
      (title ++ (ascii "i2ei0ei2ei" ++ ([48] ++ (ascii "ei2ei" ++ ([48] ++
      (ascii "ei2ei" ++ ([48] ++ (ascii "ei2ei" ++ ([48] ++ (ascii "ei2ei" ++ ([48] ++
      (ascii "ei2ei" ++ ([48] ++ (ascii "ei2ei" ++ ([48] ++ (ascii "ei2ei" ++ ([48] ++
      (ascii "ei2ei" ++ ([48] ++ (ascii "ei2ei" ++ ([48] ++ (ascii "ei1e20" ++ ([58] ++
      (hsh ++ (ascii "i1e" ++ (pyStrNat dir.length ++ (ascii ":" ++ (dir ++
      rest)))))))))))))))))))))))))))))))) := by
    rw [hE1]
    exact drop_seg m (pos + 5) num.length num _ a1 rfl
  have a3 : m.drop (E1 + 5) =
      [st] ++ (ascii "ei3e" ++ (pyStrNat title.length ++ (ascii ":" ++ (title ++
      (ascii "i2ei0ei2ei" ++ ([48] ++ (ascii "ei2ei" ++ ([48] ++ (ascii "ei2ei" ++ ([48] ++
      (ascii "ei2ei" ++ ([48] ++ (ascii "ei2ei" ++ ([48] ++ (ascii "ei2ei" ++ ([48] ++
      (ascii "ei2ei" ++ ([48] ++ (ascii "ei2ei" ++ ([48] ++ (ascii "ei2ei" ++ ([48] ++
      (ascii "ei2ei" ++ ([48] ++ (ascii "ei1e20" ++ ([58] ++ (hsh ++ (ascii "i1e" ++
      (pyStrNat dir.length ++ (ascii ":" ++ (dir ++ rest))))))))))))))))))))))))))))))) :=
    drop_seg m E1 5 (ascii "ei2ei") _ a2 (by decide)
  obtain ⟨E2, hE2⟩ : ∃ x : Nat, x = E1 + 5 + 1 := ⟨_, rfl⟩
  have hfind3 : pyFind m (ascii "ei3e") (E1 + 5) = some E2 := by
    rw [hE2]
    simpa using pyFind_at2 m (E1 + 5) [st] (ascii "ei3e") _ 101 [105, 51, 101]
      ascii_ei3e a3 hstc
  have hsl2 : pySlice m (E1 + 5) E2 = [st] := by
    rw [hE2]
    simpa using pySlice_at m (E1 + 5) [st] _ a3
  have a4 : m.drop E2 =
      ascii "ei3e" ++ (pyStrNat title.length ++ (ascii ":" ++ (title ++
      (ascii "i2ei0ei2ei" ++ ([48] ++ (ascii "ei2ei" ++ ([48] ++ (ascii "ei2ei" ++ ([48] ++
      (ascii "ei2ei" ++ ([48] ++ (ascii "ei2ei" ++ ([48] ++ (ascii "ei2ei" ++ ([48] ++
      (ascii "ei2ei" ++ ([48] ++ (ascii "ei2ei" ++ ([48] ++ (ascii "ei2ei" ++ ([48] ++
      (ascii "ei2ei" ++ ([48] ++ (ascii "ei1e20" ++ ([58] ++ (hsh ++ (ascii "i1e" ++
      (pyStrNat dir.length ++ (ascii ":" ++ (dir ++ rest)))))))))))))))))))))))))))))) := by
    rw [hE2]
    exact drop_seg m (E1 + 5) 1 [st] _ a3 rfl
  have a5 : m.drop (E2 + 4) =
      pyStrNat title.length ++ (ascii ":" ++ (title ++ (ascii "i2ei0ei2ei" ++ ([48] ++
      (ascii "ei2ei" ++ ([48] ++ (ascii "ei2ei" ++ ([48] ++ (ascii "ei2ei" ++ ([48] ++
      (ascii "ei2ei" ++ ([48] ++ (ascii "ei2ei" ++ ([48] ++ (ascii "ei2ei" ++ ([48] ++
      (ascii "ei2ei" ++ ([48] ++ (ascii "ei2ei" ++ ([48] ++ (ascii "ei2ei" ++ ([48] ++
      (ascii "ei1e20" ++ ([58] ++ (hsh ++ (ascii "i1e" ++ (pyStrNat dir.length ++
      (ascii ":" ++ (dir ++ rest))))))))))))))))))))))))))))) :=
    drop_seg m E2 4 (ascii "ei3e") _ a4 (by decide)
  obtain ⟨E3, hE3⟩ : ∃ x : Nat, x = E2 + 4 + (pyStrNat title.length).length := ⟨_, rfl⟩
  have hfind4 : pyFind m (ascii ":") (E2 + 4) = some E3 := by
    rw [hE3]
    exact pyFind_at2 m (E2 + 4) (pyStrNat title.length) (ascii ":") _ 58 []
      ascii_colon a5 (hsnc title.length)
  have hsl3 : pyNat (pySlice m (E2 + 4) E3) = some title.length := by
    rw [hE3, pySlice_at m (E2 + 4) (pyStrNat title.length) _ a5]
    exact pyNat_pyStrNat title.length
  have a6 : m.drop E3 =
      ascii ":" ++ (title ++ (ascii "i2ei0ei2ei" ++ ([48] ++ (ascii "ei2ei" ++ ([48] ++
      (ascii "ei2ei" ++ ([48] ++ (ascii "ei2ei" ++ ([48] ++ (ascii "ei2ei" ++ ([48] ++
      (ascii "ei2ei" ++ ([48] ++ (ascii "ei2ei" ++ ([48] ++ (ascii "ei2ei" ++ ([48] ++
      (ascii "ei2ei" ++ ([48] ++ (ascii "ei2ei" ++ ([48] ++ (ascii "ei1e20" ++ ([58] ++
      (hsh ++ (ascii "i1e" ++ (pyStrNat dir.length ++ (ascii ":" ++ (dir ++
      rest)))))))))))))))))))))))))))) := by
    rw [hE3]
    exact drop_seg m (E2 + 4) (pyStrNat title.length).length (pyStrNat title.length) _ a5 rfl
  have a7 : m.drop (E3 + 1) =
      title ++ (ascii "i2ei0ei2ei" ++ ([48] ++ (ascii "ei2ei" ++ ([48] ++ (ascii "ei2ei" ++
      ([48] ++ (ascii "ei2ei" ++ ([48] ++ (ascii "ei2ei" ++ ([48] ++ (ascii "ei2ei" ++
      ([48] ++ (ascii "ei2ei" ++ ([48] ++ (ascii "ei2ei" ++ ([48] ++ (ascii "ei2ei" ++
      ([48] ++ (ascii "ei2ei" ++ ([48] ++ (ascii "ei1e20" ++ ([58] ++ (hsh ++
      (ascii "i1e" ++ (pyStrNat dir.length ++ (ascii ":" ++ (dir ++
      rest))))))))))))))))))))))))))) :=
    drop_seg m E3 1 (ascii ":") _ a6 (by decide)
  have hsl4 : pySlice m (E3 + 1) (E3 + 1 + title.length) = title :=
    pySlice_at m (E3 + 1) title _ a7
  have a8 : m.drop (E3 + 1 + title.length) =
      ascii "i2ei0ei2ei" ++ ([48] ++ (ascii "ei2ei" ++ ([48] ++ (ascii "ei2ei" ++ ([48] ++
      (ascii "ei2ei" ++ ([48] ++ (ascii "ei2ei" ++ ([48] ++ (ascii "ei2ei" ++ ([48] ++
      (ascii "ei2ei" ++ ([48] ++ (ascii "ei2ei" ++ ([48] ++ (ascii "ei2ei" ++ ([48] ++
      (ascii "ei2ei" ++ ([48] ++ (ascii "ei1e20" ++ ([58] ++ (hsh ++ (ascii "i1e" ++
      (pyStrNat dir.length ++ (ascii ":" ++ (dir ++ rest)))))))))))))))))))))))))) :=
    drop_seg m (E3 + 1) title.length title _ a7 rfl
  have a9 : m.drop (E3 + 1 + title.length + 10) =
      [48] ++ (ascii "ei2ei" ++ ([48] ++ (ascii "ei2ei" ++ ([48] ++ (ascii "ei2ei" ++
      ([48] ++ (ascii "ei2ei" ++ ([48] ++ (ascii "ei2ei" ++ ([48] ++ (ascii "ei2ei" ++
      ([48] ++ (ascii "ei2ei" ++ ([48] ++ (ascii "ei2ei" ++ ([48] ++ (ascii "ei2ei" ++
      ([48] ++ (ascii "ei1e20" ++ ([58] ++ (hsh ++ (ascii "i1e" ++ (pyStrNat dir.length ++
      (ascii ":" ++ (dir ++ rest))))))))))))))))))))))))) :=
    drop_seg m (E3 + 1 + title.length) 10 (ascii "i2ei0ei2ei") _ a8 (by decide)
  obtain ⟨E5, hE5⟩ : ∃ x : Nat, x = E3 + title.length + 11 + 1 := ⟨_, rfl⟩
  have hbr0 : E3 + title.length + 11 = E3 + 1 + title.length + 10 := by omega
  have hfind5 : pyFind m (ascii "ei2ei") (E3 + title.length + 11) = some E5 := by
    rw [hE5, hbr0]
    simpa using pyFind_at2 m (E3 + 1 + title.length + 10) [48] (ascii "ei2ei") _ 101
      [105, 50, 101, 105] ascii_ei2ei a9 h48c
  have hsl5 : pySlice m (E3 + title.length + 11) E5 = [48] := by
    rw [hE5, hbr0]
    simpa using pySlice_at m (E3 + 1 + title.length + 10) [48] _ a9
  have a10 : m.drop E5 =
      ascii "ei2ei" ++ ([48] ++ (ascii "ei2ei" ++ ([48] ++ (ascii "ei2ei" ++ ([48] ++
      (ascii "ei2ei" ++ ([48] ++ (ascii "ei2ei" ++ ([48] ++ (ascii "ei2ei" ++ ([48] ++
      (ascii "ei2ei" ++ ([48] ++ (ascii "ei2ei" ++ ([48] ++ (ascii "ei2ei" ++ ([48] ++
      (ascii "ei1e20" ++ ([58] ++ (hsh ++ (ascii "i1e" ++ (pyStrNat dir.length ++
      (ascii ":" ++ (dir ++ rest)))))))))))))))))))))))) := by
    rw [hE5, hbr0]
    exact drop_seg m (E3 + 1 + title.length + 10) 1 [48] _ a9 rfl
  have a11 : m.drop (E5 + 5) =
      [48] ++ (ascii "ei2ei" ++ ([48] ++ (ascii "ei2ei" ++ ([48] ++ (ascii "ei2ei" ++
      ([48] ++ (ascii "ei2ei" ++ ([48] ++ (ascii "ei2ei" ++ ([48] ++ (ascii "ei2ei" ++
      ([48] ++ (ascii "ei2ei" ++ ([48] ++ (ascii "ei2ei" ++ ([48] ++ (ascii "ei1e20" ++
      ([58] ++ (hsh ++ (ascii "i1e" ++ (pyStrNat dir.length ++ (ascii ":" ++ (dir ++
      rest))))))))))))))))))))))) :=
    drop_seg m E5 5 (ascii "ei2ei") _ a10 (by decide)
  obtain ⟨E6, hE6⟩ : ∃ x : Nat, x = E5 + 5 + 1 := ⟨_, rfl⟩
  have hfind6 : pyFind m (ascii "ei2ei") (E5 + 5) = some E6 := by
    rw [hE6]
    simpa using pyFind_at2 m (E5 + 5) [48] (ascii "ei2ei") _ 101
      [105, 50, 101, 105] ascii_ei2ei a11 h48c
  have hsl6 : pySlice m (E5 + 5) E6 = [48] := by
    rw [hE6]
    simpa using pySlice_at m (E5 + 5) [48] _ a11
  have a12 : m.drop E6 =
      ascii "ei2ei" ++ ([48] ++ (ascii "ei2ei" ++ ([48] ++ (ascii "ei2ei" ++ ([48] ++
      (ascii "ei2ei" ++ ([48] ++ (ascii "ei2ei" ++ ([48] ++ (ascii "ei2ei" ++ ([48] ++
      (ascii "ei2ei" ++ ([48] ++ (ascii "ei2ei" ++ ([48] ++ (ascii "ei1e20" ++ ([58] ++
      (hsh ++ (ascii "i1e" ++ (pyStrNat dir.length ++ (ascii ":" ++ (dir ++
      rest)))))))))))))))))))))) := by
    rw [hE6]
    exact drop_seg m (E5 + 5) 1 [48] _ a11 rfl
  have a13 : m.drop (E6 + 5) =
      [48] ++ (ascii "ei2ei" ++ ([48] ++ (ascii "ei2ei" ++ ([48] ++ (ascii "ei2ei" ++
      ([48] ++ (ascii "ei2ei" ++ ([48] ++ (ascii "ei2ei" ++ ([48] ++ (ascii "ei2ei" ++
      ([48] ++ (ascii "ei2ei" ++ ([48] ++ (ascii "ei1e20" ++ ([58] ++ (hsh ++
      (ascii "i1e" ++ (pyStrNat dir.length ++ (ascii ":" ++ (dir ++
      rest))))))))))))))))))))) :=
    drop_seg m E6 5 (ascii "ei2ei") _ a12 (by decide)
  obtain ⟨E7, hE7⟩ : ∃ x : Nat, x = E6 + 5 + 1 := ⟨_, rfl⟩
  have hfind7 : pyFind m (ascii "ei2ei") (E6 + 5) = some E7 := by
    rw [hE7]
    simpa using pyFind_at2 m (E6 + 5) [48] (ascii "ei2ei") _ 101
      [105, 50, 101, 105] ascii_ei2ei a13 h48c
  have hsl7 : pySlice m (E6 + 5) E7 = [48] := by
    rw [hE7]
    simpa using pySlice_at m (E6 + 5) [48] _ a13
  have a14 : m.drop E7 =
      ascii "ei2ei" ++ ([48] ++ (ascii "ei2ei" ++ ([48] ++ (ascii "ei2ei" ++ ([48] ++
      (ascii "ei2ei" ++ ([48] ++ (ascii "ei2ei" ++ ([48] ++ (ascii "ei2ei" ++ ([48] ++
      (ascii "ei2ei" ++ ([48] ++ (ascii "ei1e20" ++ ([58] ++ (hsh ++ (ascii "i1e" ++
      (pyStrNat dir.length ++ (ascii ":" ++ (dir ++ rest)))))))))))))))))))) := by
    rw [hE7]
    exact drop_seg m (E6 + 5) 1 [48] _ a13 rfl
  have a15 : m.drop (E7 + 5) =
      [48] ++ (ascii "ei2ei" ++ ([48] ++ (ascii "ei2ei" ++ ([48] ++ (ascii "ei2ei" ++
      ([48] ++ (ascii "ei2ei" ++ ([48] ++ (ascii "ei2ei" ++ ([48] ++ (ascii "ei2ei" ++
      ([48] ++ (ascii "ei1e20" ++ ([58] ++ (hsh ++ (ascii "i1e" ++ (pyStrNat dir.length ++
      (ascii ":" ++ (dir ++ rest))))))))))))))))))) :=
    drop_seg m E7 5 (ascii "ei2ei") _ a14 (by decide)
  obtain ⟨E8, hE8⟩ : ∃ x : Nat, x = E7 + 5 + 1 := ⟨_, rfl⟩
  have hfind8 : pyFind m (ascii "ei2ei") (E7 + 5) = some E8 := by
    rw [hE8]
    simpa using pyFind_at2 m (E7 + 5) [48] (ascii "ei2ei") _ 101
      [105, 50, 101, 105] ascii_ei2ei a15 h48c
  have hsl8 : pySlice m (E7 + 5) E8 = [48] := by
    rw [hE8]
    simpa using pySlice_at m (E7 + 5) [48] _ a15
  have a16 : m.drop E8 =
      ascii "ei2ei" ++ ([48] ++ (ascii "ei2ei" ++ ([48] ++ (ascii "ei2ei" ++ ([48] ++
      (ascii "ei2ei" ++ ([48] ++ (ascii "ei2ei" ++ ([48] ++ (ascii "ei2ei" ++ ([48] ++
      (ascii "ei1e20" ++ ([58] ++ (hsh ++ (ascii "i1e" ++ (pyStrNat dir.length ++
      (ascii ":" ++ (dir ++ rest)))))))))))))))))) := by
    rw [hE8]
    exact drop_seg m (E7 + 5) 1 [48] _ a15 rfl
  have a17 : m.drop (E8 + 5) =
      [48] ++ (ascii "ei2ei" ++ ([48] ++ (ascii "ei2ei" ++ ([48] ++ (ascii "ei2ei" ++
      ([48] ++ (ascii "ei2ei" ++ ([48] ++ (ascii "ei2ei" ++ ([48] ++ (ascii "ei1e20" ++
      ([58] ++ (hsh ++ (ascii "i1e" ++ (pyStrNat dir.length ++ (ascii ":" ++ (dir ++
      rest))))))))))))))))) :=
    drop_seg m E8 5 (ascii "ei2ei") _ a16 (by decide)
  obtain ⟨E9, hE9⟩ : ∃ x : Nat, x = E8 + 5 + 1 := ⟨_, rfl⟩
  have hfind9 : pyFind m (ascii "ei2ei") (E8 + 5) = some E9 := by
    rw [hE9]
    simpa using pyFind_at2 m (E8 + 5) [48] (ascii "ei2ei") _ 101
      [105, 50, 101, 105] ascii_ei2ei a17 h48c
  have hsl9 : pySlice m (E8 + 5) E9 = [48] := by
    rw [hE9]
    simpa using pySlice_at m (E8 + 5) [48] _ a17
  have a18 : m.drop E9 =
      ascii "ei2ei" ++ ([48] ++ (ascii "ei2ei" ++ ([48] ++ (ascii "ei2ei" ++ ([48] ++
      (ascii "ei2ei" ++ ([48] ++ (ascii "ei2ei" ++ ([48] ++ (ascii "ei1e20" ++ ([58] ++
      (hsh ++ (ascii "i1e" ++ (pyStrNat dir.length ++ (ascii ":" ++ (dir ++
      rest)))))))))))))))) := by
    rw [hE9]
    exact drop_seg m (E8 + 5) 1 [48] _ a17 rfl
  have a19 : m.drop (E9 + 5) =
      [48] ++ (ascii "ei2ei" ++ ([48] ++ (ascii "ei2ei" ++ ([48] ++ (ascii "ei2ei" ++
      ([48] ++ (ascii "ei2ei" ++ ([48] ++ (ascii "ei1e20" ++ ([58] ++ (hsh ++
      (ascii "i1e" ++ (pyStrNat dir.length ++ (ascii ":" ++ (dir ++ rest))))))))))))))) :=
    drop_seg m E9 5 (ascii "ei2ei") _ a18 (by decide)
  obtain ⟨E10, hE10⟩ : ∃ x : Nat, x = E9 + 5 + 1 := ⟨_, rfl⟩
  have hfind10 : pyFind m (ascii "ei2ei") (E9 + 5) = some E10 := by
    rw [hE10]
    simpa using pyFind_at2 m (E9 + 5) [48] (ascii "ei2ei") _ 101
      [105, 50, 101, 105] ascii_ei2ei a19 h48c
  have hsl10 : pySlice m (E9 + 5) E10 = [48] := by
    rw [hE10]
    simpa using pySlice_at m (E9 + 5) [48] _ a19
  have a20 : m.drop E10 =
      ascii "ei2ei" ++ ([48] ++ (ascii "ei2ei" ++ ([48] ++ (ascii "ei2ei" ++ ([48] ++
      (ascii "ei2ei" ++ ([48] ++ (ascii "ei1e20" ++ ([58] ++ (hsh ++ (ascii "i1e" ++
      (pyStrNat dir.length ++ (ascii ":" ++ (dir ++ rest)))))))))))))) := by
    rw [hE10]
    exact drop_seg m (E9 + 5) 1 [48] _ a19 rfl
  have a21 : m.drop (E10 + 5) =
      [48] ++ (ascii "ei2ei" ++ ([48] ++ (ascii "ei2ei" ++ ([48] ++ (ascii "ei2ei" ++
      ([48] ++ (ascii "ei1e20" ++ ([58] ++ (hsh ++ (ascii "i1e" ++ (pyStrNat dir.length ++
      (ascii ":" ++ (dir ++ rest))))))))))))) :=
    drop_seg m E10 5 (ascii "ei2ei") _ a20 (by decide)
  obtain ⟨E11, hE11⟩ : ∃ x : Nat, x = E10 + 5 + 1 := ⟨_, rfl⟩
  have hfind11 : pyFind m (ascii "ei2ei") (E10 + 5) = some E11 := by
    rw [hE11]
    simpa using pyFind_at2 m (E10 + 5) [48] (ascii "ei2ei") _ 101
      [105, 50, 101, 105] ascii_ei2ei a21 h48c
  have hsl11 : pySlice m (E10 + 5) E11 = [48] := by
    rw [hE11]
    simpa using pySlice_at m (E10 + 5) [48] _ a21
  have a22 : m.drop E11 =
      ascii "ei2ei" ++ ([48] ++ (ascii "ei2ei" ++ ([48] ++ (ascii "ei2ei" ++ ([48] ++
      (ascii "ei1e20" ++ ([58] ++ (hsh ++ (ascii "i1e" ++ (pyStrNat dir.length ++
      (ascii ":" ++ (dir ++ rest)))))))))))) := by
    rw [hE11]
    exact drop_seg m (E10 + 5) 1 [48] _ a21 rfl
  have a23 : m.drop (E11 + 5) =
      [48] ++ (ascii "ei2ei" ++ ([48] ++ (ascii "ei2ei" ++ ([48] ++ (ascii "ei1e20" ++
      ([58] ++ (hsh ++ (ascii "i1e" ++ (pyStrNat dir.length ++ (ascii ":" ++ (dir ++
      rest))))))))))) :=
    drop_seg m E11 5 (ascii "ei2ei") _ a22 (by decide)
  obtain ⟨E12, hE12⟩ : ∃ x : Nat, x = E11 + 5 + 1 := ⟨_, rfl⟩
  have hfind12 : pyFind m (ascii "ei2ei") (E11 + 5) = some E12 := by
    rw [hE12]
    simpa using pyFind_at2 m (E11 + 5) [48] (ascii "ei2ei") _ 101
      [105, 50, 101, 105] ascii_ei2ei a23 h48c
  have hsl12 : pySlice m (E11 + 5) E12 = [48] := by
    rw [hE12]
    simpa using pySlice_at m (E11 + 5) [48] _ a23
  have a24 : m.drop E12 =
      ascii "ei2ei" ++ ([48] ++ (ascii "ei2ei" ++ ([48] ++ (ascii "ei1e20" ++ ([58] ++
      (hsh ++ (ascii "i1e" ++ (pyStrNat dir.length ++ (ascii ":" ++ (dir ++
      rest)))))))))) := by
    rw [hE12]
    exact drop_seg m (E11 + 5) 1 [48] _ a23 rfl
  have a25 : m.drop (E12 + 5) =
      [48] ++ (ascii "ei2ei" ++ ([48] ++ (ascii "ei1e20" ++ ([58] ++ (hsh ++
      (ascii "i1e" ++ (pyStrNat dir.length ++ (ascii ":" ++ (dir ++ rest))))))))) :=
    drop_seg m E12 5 (ascii "ei2ei") _ a24 (by decide)
  obtain ⟨E13, hE13⟩ : ∃ x : Nat, x = E12 + 5 + 1 := ⟨_, rfl⟩
  have hfind13 : pyFind m (ascii "ei2ei") (E12 + 5) = some E13 := by
    rw [hE13]
    simpa using pyFind_at2 m (E12 + 5) [48] (ascii "ei2ei") _ 101
      [105, 50, 101, 105] ascii_ei2ei a25 h48c
  have hsl13 : pySlice m (E12 + 5) E13 = [48] := by
    rw [hE13]
    simpa using pySlice_at m (E12 + 5) [48] _ a25
  have a26 : m.drop E13 =
      ascii "ei2ei" ++ ([48] ++ (ascii "ei1e20" ++ ([58] ++ (hsh ++ (ascii "i1e" ++
      (pyStrNat dir.length ++ (ascii ":" ++ (dir ++ rest)))))))) := by
    rw [hE13]
    exact drop_seg m (E12 + 5) 1 [48] _ a25 rfl
  have a27 : m.drop (E13 + 5) =
      [48] ++ (ascii "ei1e20" ++ ([58] ++ (hsh ++ (ascii "i1e" ++ (pyStrNat dir.length ++
      (ascii ":" ++ (dir ++ rest))))))) :=
    drop_seg m E13 5 (ascii "ei2ei") _ a26 (by decide)
  obtain ⟨E14, hE14⟩ : ∃ x : Nat, x = E13 + 5 + 1 := ⟨_, rfl⟩
  have hfind14 : pyFind m (ascii "ei1e20") (E13 + 5) = some E14 := by
    rw [hE14]
    simpa using pyFind_at2 m (E13 + 5) [48] (ascii "ei1e20") _ 101
      [105, 49, 101, 50, 48] ascii_ei1e20 a27 h48c
  have hsl14 : pySlice m (E13 + 5) E14 = [48] := by
    rw [hE14]
    simpa using pySlice_at m (E13 + 5) [48] _ a27
  have a28 : m.drop E14 =
      ascii "ei1e20" ++ ([58] ++ (hsh ++ (ascii "i1e" ++ (pyStrNat dir.length ++
      (ascii ":" ++ (dir ++ rest)))))) := by
    rw [hE14]
    exact drop_seg m (E13 + 5) 1 [48] _ a27 rfl
  have a29 : m.drop (E14 + 6) =
      [58] ++ (hsh ++ (ascii "i1e" ++ (pyStrNat dir.length ++ (ascii ":" ++ (dir ++
      rest))))) :=
    drop_seg m E14 6 (ascii "ei1e20") _ a28 (by decide)
  have a30 : m.drop (E14 + 7) =
      hsh ++ (ascii "i1e" ++ (pyStrNat dir.length ++ (ascii ":" ++ (dir ++ rest)))) := by
    rw [show E14 + 7 = E14 + 6 + 1 from rfl]
    exact drop_seg m (E14 + 6) 1 [58] _ a29 rfl
  have hslh : pySlice m (E14 + 7) (E14 + 27) = hsh := by
    rw [show E14 + 27 = E14 + 7 + hsh.length from by omega]
    exact pySlice_at m (E14 + 7) hsh _ a30
  have a31 : m.drop (E14 + 27) =
      ascii "i1e" ++ (pyStrNat dir.length ++ (ascii ":" ++ (dir ++ rest))) := by
    rw [show E14 + 27 = E14 + 7 + hsh.length from by omega]
    exact drop_seg m (E14 + 7) hsh.length hsh _ a30 rfl
  have a32 : m.drop (E14 + 30) =
      pyStrNat dir.length ++ (ascii ":" ++ (dir ++ rest)) := by
    rw [show E14 + 30 = E14 + 27 + 3 from rfl]
    exact drop_seg m (E14 + 27) 3 (ascii "i1e") _ a31 (by decide)
  obtain ⟨E16, hE16⟩ : ∃ x : Nat, x = E14 + 30 + (pyStrNat dir.length).length := ⟨_, rfl⟩
  have hfind15 : pyFind m (ascii ":") (E14 + 30) = some E16 := by
    rw [hE16]
    exact pyFind_at2 m (E14 + 30) (pyStrNat dir.length) (ascii ":") _ 58 []
      ascii_colon a32 (hsnc dir.length)
  have hsl15 : pyNat (pySlice m (E14 + 30) E16) = some dir.length := by
    rw [hE16, pySlice_at m (E14 + 30) (pyStrNat dir.length) _ a32]
    exact pyNat_pyStrNat dir.length
  have a33 : m.drop E16 =
      ascii ":" ++ (dir ++ rest) := by
    rw [hE16]
    exact drop_seg m (E14 + 30) (pyStrNat dir.length).length (pyStrNat dir.length) _ a32 rfl
  have a34 : m.drop (E16 + 1) = dir ++ rest :=
    drop_seg m E16 1 (ascii ":") _ a33 (by decide)
  have hsl16 : pySlice m (E16 + 1) (E16 + 1 + dir.length) = dir :=
    pySlice_at m (E16 + 1) dir _ a34
  simp only [decodeRecord, hfind1, hfind2, hsl1, hfind3, hsl2, hfind4, hsl3, hsl4,
    hfind5, hsl5, hfind6, hsl6, hfind7, hsl7, hfind8, hsl8, hfind9, hsl9, hfind10,
    hsl10, hfind11, hsl11, hfind12, hsl12, hfind13, hsl13, hfind14, hsl14, hslh,
    hfind15, hsl15, hsl16, entryRecord]
  simp only [Option.some.injEq, Prod.mk.injEq]
  refine ⟨trivial, ?_⟩
  omega

theorem ascii_e : ascii "e" = [101] := by decide

theorem statusEntry_length (num : List Nat) (st : Nat) (title hsh dir : List Nat)
    (hh : hsh.length = 20) :
    (statusEntry num st title hsh dir).length =
      112 + num.length + (pyStrNat title.length).length + title.length +
        (pyStrNat dir.length).length + dir.length := by
  have l1 : (ascii "li2ei").length = 5 := by decide
  have l2 : (ascii "ei2ei").length = 5 := by decide
  have l3 : (ascii "ei3e").length = 4 := by decide
  have l4 : (ascii ":").length = 1 := by decide
  have l5 : (ascii "i2ei0ei2ei").length = 10 := by decide
  have l6 : (ascii "ei1e20").length = 6 := by decide
  have l7 : (ascii "i1e").length = 3 := by decide
  simp [statusEntry, List.length_append, l1, l2, l3, l4, l5, l6, l7, hh]
  omega

theorem findFrom_head_ll (t : List Nat) :
    findFrom (108 :: 108 :: 105 :: 50 :: 101 :: 105 :: t) [108, 105, 50, 101, 105] =
      some 1 := by
  have h2 : findFrom (108 :: 105 :: 50 :: 101 :: 105 :: t) [108, 105, 50, 101, 105] =
      some 0 := by
    apply findFrom_of_prefix
    have he : (108 :: 105 :: 50 :: 101 :: 105 :: t) = [108, 105, 50, 101, 105] ++ t := rfl
    rw [he]
    exact isPrefixOf_append_self _ _
  have h1 : List.isPrefixOf [108, 105, 50, 101, 105]
      (108 :: 108 :: 105 :: 50 :: 101 :: 105 :: t) = false := by
    simp [List.isPrefixOf]
  rw [findFrom, h1]
  simp [h2]

theorem findFrom_head_li2 (t : List Nat) :
    findFrom (108 :: 108 :: 105 :: 50 :: t) [108, 105, 50] = some 1 := by
  have h2 : findFrom (108 :: 105 :: 50 :: t) [108, 105, 50] = some 0 := by
    apply findFrom_of_prefix
    have he : (108 :: 105 :: 50 :: t) = [108, 105, 50] ++ t := rfl
    rw [he]
    exact isPrefixOf_append_self _ _
  have h1 : List.isPrefixOf [108, 105, 50] (108 :: 108 :: 105 :: 50 :: t) = false := by
    simp [List.isPrefixOf]
  rw [findFrom, h1]
  simp [h2]

/-- `stat` on a well-formed two-entry status body: the envelope decodes to
`(0, success)`, the `li2` probe fires, and the scanner pushes exactly the two
encoded records onto the cleared columns, in order. -/
theorem stat_statusBody2 (n1 n2 : List Nat) (s1 s2 : Nat)
    (t1 h1 d1 t2 h2 d2 : List Nat)
    (hn1 : n1.all isDigit = true) (hn2 : n2.all isDigit = true)
    (hs1 : s1 ≠ 101) (hs2 : s2 ≠ 101)
    (hh1 : h1.length = 20) (hh2 : h2.length = 20) :
    stat (statusBody2 n1 s1 t1 h1 d1 n2 s2 t2 h2 d2) =
      some ((0, "success"),
        pushRecord (pushRecord _clear (entryRecord n1 s1 t1 h1 d1))
          (entryRecord n2 s2 t2 h2 d2),
        true) := by
  obtain ⟨mB, hmBdef⟩ : ∃ x, x = statusBody2 n1 s1 t1 h1 d1 n2 s2 t2 h2 d2 := ⟨_, rfl⟩
  rw [← hmBdef]
  have hee : ascii "ee" = [101, 101] := by decide
  have hm8 : mB = [100, 52, 58, 99, 111, 100, 101, 105] ++ ([48] ++ ([101] ++
      ([54, 58, 114, 101, 115, 117, 108, 116, 108] ++ (statusEntry n1 s1 t1 h1 d1 ++
      ([101] ++ (statusEntry n2 s2 t2 h2 d2 ++ ([101] ++ [101, 101]))))))) := by
    rw [hmBdef]
    have hh8 : ascii "d4:codei0e6:resultl" = [100, 52, 58, 99, 111, 100, 101, 105] ++
        ([48] ++ ([101] ++ [54, 58, 114, 101, 115, 117, 108, 116, 108])) := by decide
    simp only [statusBody2, hh8, ascii_e, hee, List.append_assoc]
  have hm18 : mB = [100, 52, 58, 99, 111, 100, 101, 105, 48, 101, 54, 58, 114, 101,
      115, 117, 108, 116] ++ ([108] ++ (statusEntry n1 s1 t1 h1 d1 ++
      ([101] ++ (statusEntry n2 s2 t2 h2 d2 ++ ([101] ++ [101, 101]))))) := by
    rw [hmBdef]
    have hh19 : ascii "d4:codei0e6:resultl" = [100, 52, 58, 99, 111, 100, 101, 105,
        48, 101, 54, 58, 114, 101, 115, 117, 108, 116] ++ [108] := by decide
    simp only [statusBody2, hh19, ascii_e, hee, List.append_assoc]
  have hd0a : mB.drop 0 = [100, 52, 58, 99, 111, 100, 101, 105] ++ ([48] ++ ([101] ++
      ([54, 58, 114, 101, 115, 117, 108, 116, 108] ++ (statusEntry n1 s1 t1 h1 d1 ++
      ([101] ++ (statusEntry n2 s2 t2 h2 d2 ++ ([101] ++ [101, 101]))))))) := by
    rw [List.drop_zero]
    exact hm8
  have hd8 : mB.drop 8 = [48] ++ ([101] ++
      ([54, 58, 114, 101, 115, 117, 108, 116, 108] ++ (statusEntry n1 s1 t1 h1 d1 ++
      ([101] ++ (statusEntry n2 s2 t2 h2 d2 ++ ([101] ++ [101, 101])))))) := by
    rw [show (8 : Nat) = 0 + 8 from rfl]
    exact drop_seg mB 0 8 [100, 52, 58, 99, 111, 100, 101, 105] _ hd0a (by decide)
  have hfe : pyFind mB [101] 8 = some 9 := by
    have := pyFind_at2 mB 8 [48] [101] _ 101 [] rfl hd8 (by decide)
    simpa using this
  have hse : pySlice mB 8 9 = [48] := by
    have := pySlice_at mB 8 [48] _ hd8
    simpa using this
  have hpi : pyInt [48] = some (0 : Int) := by decide
  have hpx : pyIndex errorCodes 0 = some "success" := rfl
  have herr : _error mB = some (0, "success") := by
    simp only [_error, hfe, hse, hpi, hpx]
  have hd0b : mB.drop 0 = [100, 52, 58, 99, 111, 100, 101, 105, 48, 101, 54, 58, 114,
      101, 115, 117, 108, 116] ++ ([108] ++ (statusEntry n1 s1 t1 h1 d1 ++
      ([101] ++ (statusEntry n2 s2 t2 h2 d2 ++ ([101] ++ [101, 101]))))) := by
    rw [List.drop_zero]
    exact hm18
  have hd18 : mB.drop 18 = [108] ++ (statusEntry n1 s1 t1 h1 d1 ++
      ([101] ++ (statusEntry n2 s2 t2 h2 d2 ++ ([101] ++ [101, 101])))) := by
    rw [show (18 : Nat) = 0 + 18 from rfl]
    exact drop_seg mB 0 18
      [100, 52, 58, 99, 111, 100, 101, 105, 48, 101, 54, 58, 114, 101, 115, 117, 108, 116]
      _ hd0b (by decide)
  obtain ⟨Q1, hQ1⟩ : ∃ q, statusEntry n1 s1 t1 h1 d1 = 108 :: 105 :: 50 :: 101 :: 105 :: q :=
    ⟨_, by simp only [statusEntry, ascii_li2ei, List.cons_append, List.nil_append, List.append_assoc]; rfl⟩
  have hd18c : mB.drop 18 = 108 :: 108 :: 105 :: 50 :: 101 :: 105 ::
      (Q1 ++ ([101] ++ (statusEntry n2 s2 t2 h2 d2 ++ ([101] ++ [101, 101])))) := by
    rw [hd18, hQ1]
    simp only [List.cons_append, List.singleton_append, List.nil_append, List.append_assoc]
  have hli2 : pyFind mB (ascii "li2") 18 = some 19 := by
    rw [pyFind, hd18c, show ascii "li2" = [108, 105, 50] from by decide, findFrom_head_li2]
    rfl
  have hfel1 : pyFind mB (ascii "li2ei") 18 = some 19 := by
    rw [pyFind, hd18c, ascii_li2ei, findFrom_head_ll]
    rfl
  have hdrop19 : mB.drop 19 = statusEntry n1 s1 t1 h1 d1 ++
      ([101] ++ (statusEntry n2 s2 t2 h2 d2 ++ ([101] ++ [101, 101]))) := by
    rw [show (19 : Nat) = 18 + 1 from rfl]
    exact drop_seg mB 18 1 [108] _ hd18 (by decide)
  obtain ⟨F1, hF1⟩ : ∃ x : Nat, x = 19 + 112 + n1.length + (pyStrNat t1.length).length +
      t1.length + (pyStrNat d1.length).length + d1.length := ⟨_, rfl⟩
  have hdec1 : decodeRecord mB 18 = some (entryRecord n1 s1 t1 h1 d1, F1) := by
    rw [hF1]
    exact decodeRecord_entry mB 18 19 n1 s1 t1 h1 d1 _ hn1 hs1 hh1 hfel1 hdrop19
  have hlen1 := statusEntry_length n1 s1 t1 h1 d1 hh1
  have haF1 : mB.drop F1 = [101] ++ (statusEntry n2 s2 t2 h2 d2 ++ ([101] ++ [101, 101])) := by
    rw [show F1 = 19 + (statusEntry n1 s1 t1 h1 d1).length from by omega]
    exact drop_seg mB 19 _ (statusEntry n1 s1 t1 h1 d1) _ hdrop19 rfl
  obtain ⟨Q2, hQ2⟩ : ∃ q, statusEntry n2 s2 t2 h2 d2 = 108 :: 105 :: 50 :: 101 :: 105 :: q :=
    ⟨_, by simp only [statusEntry, ascii_li2ei, List.cons_append, List.nil_append, List.append_assoc]; rfl⟩
  have haF1c : mB.drop F1 = 101 :: 108 :: 105 :: 50 :: 101 :: 105 ::
      (Q2 ++ ([101] ++ [101, 101])) := by
    rw [haF1, hQ2]
    simp only [List.cons_append, List.singleton_append, List.nil_append, List.append_assoc]
  have heli1 : pyFind mB (ascii "eli") F1 = some F1 := by
    rw [pyFind, haF1c, ascii_eli,
      findFrom_of_prefix _ _ (by simp [List.isPrefixOf])]
    simp
  have haF1b : mB.drop F1 = [101] ++ (ascii "li2ei" ++ (Q2 ++ ([101] ++ [101, 101]))) := by
    rw [ascii_li2ei]
    simp only [List.cons_append, List.singleton_append, List.nil_append]
    exact haF1c
  have hfel2 : pyFind mB (ascii "li2ei") F1 = some (F1 + 1) := by
    have := pyFind_at2 mB F1 [101] (ascii "li2ei") (Q2 ++ ([101] ++ [101, 101]))
      108 [105, 50, 101, 105] ascii_li2ei haF1b (by decide)
    simpa using this
  have hdropF11 : mB.drop (F1 + 1) = statusEntry n2 s2 t2 h2 d2 ++ ([101] ++ [101, 101]) :=
    drop_seg mB F1 1 [101] _ haF1 (by decide)
  obtain ⟨F2, hF2⟩ : ∃ x : Nat, x = F1 + 1 + 112 + n2.length + (pyStrNat t2.length).length +
      t2.length + (pyStrNat d2.length).length + d2.length := ⟨_, rfl⟩
  have hdec2 : decodeRecord mB F1 = some (entryRecord n2 s2 t2 h2 d2, F2) := by
    rw [hF2]
    exact decodeRecord_entry mB F1 (F1 + 1) n2 s2 t2 h2 d2 _ hn2 hs2 hh2 hfel2 hdropF11
  have hlen2 := statusEntry_length n2 s2 t2 h2 d2 hh2
  have haF2 : mB.drop F2 = [101] ++ [101, 101] := by
    rw [show F2 = (F1 + 1) + (statusEntry n2 s2 t2 h2 d2).length from by omega]
    exact drop_seg mB (F1 + 1) _ (statusEntry n2 s2 t2 h2 d2) _ hdropF11 rfl
  have heli2 : pyFind mB (ascii "eli") F2 = none := by
    rw [pyFind, haF2, show findFrom ([101] ++ [101, 101]) (ascii "eli") = none from by decide]
    rfl
  have hloop : ∀ f : Nat, decodeLoop (f + 2) mB 18 _clear =
      some (pushRecord (pushRecord _clear (entryRecord n1 s1 t1 h1 d1))
        (entryRecord n2 s2 t2 h2 d2)) := by
    intro f
    show decodeLoop ((f + 1) + 1) mB 18 _clear = _
    simp only [decodeLoop, hdec1, heli1, hdec2, heli2]
  have hlen0 : 1 ≤ mB.length := by
    rw [hm18]
    simp
  have hdec : _decode mB =
      some (pushRecord (pushRecord _clear (entryRecord n1 s1 t1 h1 d1))
        (entryRecord n2 s2 t2 h2 d2)) := by
    rw [_decode, show mB.length + 1 = (mB.length - 1) + 2 from by omega]
    exact hloop (mB.length - 1)
  simp only [stat, herr, hli2, hdec]

/-- The column invariant the scanner maintains: `uped` stays empty and the
15 columns it appends to stay mutually aligned, one entry per record. -/
def columnsAligned (d : DataT) : Prop :=
  d.uped = [] ∧
  d.state.length = d.number.length ∧ d.title.length = d.number.length ∧
  d.dir.length = d.number.length ∧ d.hash.length = d.number.length ∧
  d.peers.length = d.number.length ∧ d.uprate.length = d.number.length ∧
  d.downrate.length = d.number.length ∧ d.downed.length = d.number.length ∧
  d.recd.length = d.number.length ∧ d.sent.length = d.number.length ∧
  d.size.length = d.number.length ∧ d.apieces.length = d.number.length ∧
  d.tpieces.length = d.number.length ∧ d.hpieces.length = d.number.length

theorem columnsAligned_clear : columnsAligned _clear :=
  ⟨rfl, rfl, rfl, rfl, rfl, rfl, rfl, rfl, rfl, rfl, rfl, rfl, rfl, rfl, rfl⟩

theorem columnsAligned_push (d : DataT) (r : RecordT) (h : columnsAligned d) :
    columnsAligned (pushRecord d r) := by
  obtain ⟨hu, h1, h2, h3, h4, h5, h6, h7, h8, h9, h10, h11, h12, h13, h14⟩ := h
  refine ⟨hu, ?_, ?_, ?_, ?_, ?_, ?_, ?_, ?_, ?_, ?_, ?_, ?_, ?_, ?_⟩ <;>
    simp [pushRecord, List.length_append] <;> omega

theorem decodeLoop_aligned : ∀ (fuel : Nat) (m : List Nat) (start : Nat) (d d' : DataT),
    columnsAligned d → decodeLoop fuel m start d = some d' → columnsAligned d' := by
  intro fuel
  induction fuel with
  | zero =>
    intro m start d d' _ h
    simp [decodeLoop] at h
  | succ f ih =>
    intro m start d d' hd h
    rw [decodeLoop] at h
    rcases hr : decodeRecord m start with - | ⟨r, fin⟩
    · simp only [hr] at h
      simp at h
    · simp only [hr] at h
      rcases hf : pyFind m (ascii "eli") fin with - | v
      · simp only [hf, Option.some.injEq] at h
        subst h
        exact columnsAligned_push d r hd
      · simp only [hf] at h
        exact ih m fin (pushRecord d r) d' (columnsAligned_push d r hd) h

theorem stat_aligned (m : List Nat) (e : Int × String) (d : DataT) (inv : Bool)
    (h : stat m = some (e, d, inv)) : columnsAligned d := by
  rw [stat] at h
  rcases he : _error m with - | e0
  · simp only [he] at h
    simp at h
  · simp only [he] at h
    rcases hf : pyFind m (ascii "li2") 18 with - | v
    · simp only [hf, Option.some.injEq, Prod.mk.injEq] at h
      obtain ⟨-, hd, -⟩ := h
      subst hd
      exact columnsAligned_clear
    · simp only [hf] at h
      rcases hdec : _decode m with - | d0
      · simp only [hdec] at h
        simp at h
      · simp only [hdec, Option.some.injEq, Prod.mk.injEq] at h
        obtain ⟨-, hd, -⟩ := h
        subst hd
        exact decodeLoop_aligned (m.length + 1) m 18 _clear d0 columnsAligned_clear hdec

theorem hexDigit_digitChar (n : Nat) (h : n < 16) :
    hexDigit n = (Nat.digitChar n).toNat := by
  interval_cases n <;> decide

theorem unpack4_pack4 (n : Nat) (h : n < 2147483648) :
    unpack4 (pack4 n) = some (n : Int) := by
  have hu : n % 256 + 256 * (n / 256 % 256) + 65536 * (n / 65536 % 256) +
      16777216 * (n / 16777216 % 256) = n := by omega
  show some (if n % 256 + 256 * (n / 256 % 256) + 65536 * (n / 65536 % 256) +
      16777216 * (n / 16777216 % 256) < 2147483648 then
        ((n % 256 + 256 * (n / 256 % 256) + 65536 * (n / 65536 % 256) +
          16777216 * (n / 16777216 % 256) : Nat) : Int)
      else ((n % 256 + 256 * (n / 256 % 256) + 65536 * (n / 65536 % 256) +
          16777216 * (n / 16777216 % 256) : Nat) : Int) - 4294967296) = some (n : Int)
  rw [hu, if_pos h]

/-- C1: `stop` with the `-a` sentinel sends exactly one fixed message and
performs no per-number loop, but the body the source sends is
`b'18:stop-alle'` — its first byte is the digit `1` (49), not the list
opener `l` (108) that `start`'s `b'l9:start-alle'` carries, so it is not
the bencoded list containing `stop-all` that the mirrored `start` path
sends. -/
theorem c1_stop_all_literal :
    stop [Arg.str "-a"] [] = (.ok none, [stopAllMessage]) ∧
    stop [Arg.str "-a", Arg.int 3] [] = (.ok none, [stopAllMessage]) ∧
    stopAllMessage = ascii "18:stop-alle" ∧
    startAllMessage = ascii "l9:start-alle" ∧
    stopAllMessage.head? = some 49 ∧
    startAllMessage.head? = some 108 :=
  ⟨rfl, rfl, rfl, rfl, rfl, rfl⟩

/-- C2 counterexample: decoding a response whose code is the out-of-catalog
integer -1 is not a decode failure — Python's negative tuple indexing
returns the last catalog entry as a fallback description. -/
theorem c2_negative_code_not_failure :
    _error (errEnvelope (-1) []) = some (-1, "torrent is inactive") := by decide

/-- C2 (amended): decoding the error envelope yields the matching catalog
description for codes 0–12, the entry at index 13 + code for codes -13…-1
(Python negative indexing), and a decode failure for every other integer. -/
theorem c2_error_code_catalog (c : Int) (rest : List Nat) :
    _error (errEnvelope c rest) =
      if 0 ≤ c ∧ c < 13 then (errorCodes.get? c.toNat).map (fun s => (c, s))
      else if -13 ≤ c ∧ c < 0 then
        (errorCodes.get? (13 + c).toNat).map (fun s => (c, s))
      else none := by
  rw [_error_envelope]
  unfold pyIndex
  have hlen : errorCodes.length = 13 := rfl
  by_cases h1 : (0 : Int) ≤ c
  · rw [if_pos h1]
    by_cases h2 : c < 13
    · rw [if_pos ⟨h1, h2⟩]
    · rw [if_neg (fun hc => h2 hc.2), if_neg (by omega)]
      have hnone : errorCodes.get? c.toNat = none := by
        apply List.get?_eq_none.mpr
        omega
      rw [hnone]
      rfl
  · rw [if_neg h1, hlen]
    by_cases h3 : -(13 : Int) ≤ c
    · rw [if_pos (by omega), if_neg (by omega), if_pos (by constructor <;> omega)]
      rw [show 13 - (-c).toNat = (13 + c).toNat from by omega]
    · rw [if_neg (by omega), if_neg (by omega), if_neg (by omega)]
      rfl

theorem c2_error_code_catalog_witness :
    _error (errEnvelope 7 []) =
      (if 0 ≤ (7 : Int) ∧ (7 : Int) < 13 then
        (errorCodes.get? (7 : Int).toNat).map (fun s => ((7 : Int), s))
      else if -13 ≤ (7 : Int) ∧ (7 : Int) < 0 then
        (errorCodes.get? (13 + (7 : Int)).toNat).map (fun s => ((7 : Int), s))
      else none) :=
  c2_error_code_catalog 7 []

/-- C3: `add` builds the documented list/dictionary shape, but the `content`
length field is the number of characters of the directory string, not the
UTF-8 byte length: for the one-character directory `é` the message carries
the length prefix `1:` followed by the two UTF-8 bytes 195, 169. -/
theorem c3_add_content_length_chars :
    addMessage ['é'] [55] =
      ascii "l3:addd7:content" ++ ascii "1" ++ ascii ":" ++ [195, 169] ++
        ascii "7:torrent" ++ ascii "1" ++ ascii ":" ++ [55] ++ ascii "ee" ∧
    (utf8Encode ['é']).length = 2 ∧
    pyStrNat (utf8Encode ['é']).length = ascii "2" := by
  refine ⟨by decide, by decide, by decide⟩

/-- C4: with the `-a` sentinel, `start` and `stop` send their fixed body but
fall off the end of the function: no response is read and Python `None` is
returned, not a sequence of (errorCode, errorText) pairs — even with a
response available in the environment. -/
theorem c4_all_sentinel_returns_none :
    start [Arg.str "-a"] [errEnvelope 0 []] = (.ok none, [startAllMessage]) ∧
    stop [Arg.str "-a"] [errEnvelope 0 []] = (.ok none, [stopAllMessage]) :=
  ⟨rfl, rfl⟩

/-- C5: for every well-formed two-torrent status body built per the
documented sub-field grammar, running the status query decode and then
`get_data` on the tags %n, %#, %h returns the two injected titles, numbers
and lowercase-hex hashes, in encoding order. -/
theorem c5_status_two_records (n1 n2 : List Nat) (s1 s2 : Nat)
    (t1 h1 d1 t2 h2 d2 : List Nat)
    (hn1 : n1.all isDigit = true) (hn2 : n2.all isDigit = true)
    (hs1 : s1 ≠ 101) (hs2 : s2 ≠ 101)
    (hh1 : h1.length = 20) (hh2 : h2.length = 20) :
    (stat (statusBody2 n1 s1 t1 h1 d1 n2 s2 t2 h2 d2)).map
        (fun x => (x.1, x.2.2, get_data x.2.1 ["%n", "%#", "%h"])) =
      some ((0, "success"), true,
        some [[t1, t2], [n1, n2], [hexlify h1, hexlify h2]]) := by
  rw [stat_statusBody2 n1 n2 s1 s2 t1 h1 d1 t2 h2 d2 hn1 hn2 hs1 hs2 hh1 hh2]
  rfl

theorem c5_status_two_records_witness :
    ((ascii "0").all isDigit = true) ∧ ((ascii "1").all isDigit = true) ∧
    (76 : Nat) ≠ 101 ∧ (73 : Nat) ≠ 101 ∧
    (List.range 20).length = 20 ∧ (List.range' 20 20).length = 20 ∧
    (stat (statusBody2 (ascii "0") 76 (ascii "alpha") (List.range 20) (ascii "dl")
        (ascii "1") 73 (ascii "beta") (List.range' 20 20) (ascii "x"))).map
        (fun x => (x.1, x.2.2, get_data x.2.1 ["%n", "%#", "%h"])) =
      some ((0, "success"), true,
        some [[ascii "alpha", ascii "beta"], [ascii "0", ascii "1"],
              [hexlify (List.range 20), hexlify (List.range' 20 20)]]) :=
  ⟨by decide, by decide, by decide, by decide, by decide, by decide,
   c5_status_two_records (ascii "0") (ascii "1") 76 73 (ascii "alpha")
     (List.range 20) (ascii "dl") (ascii "beta") (List.range' 20 20) (ascii "x")
     (by decide) (by decide) (by decide) (by decide) (by decide) (by decide)⟩

/-- C6: a status response with a code-0 envelope and no inner-list-start
marker at or after offset 18 makes `stat` return error code 0 with the
success description, leave every column of the freshly cleared snapshot
empty, and never invoke the per-record scanner. -/
theorem c6_empty_status (rest : List Nat)
    (hfind : pyFind (errEnvelope 0 rest) (ascii "li2") 18 = none) :
    stat (errEnvelope 0 rest) = some ((0, "success"), _clear, false) := by
  have herr : _error (errEnvelope 0 rest) = some (0, "success") := by
    rw [_error_envelope]
    rfl
  simp only [stat, herr, hfind]

theorem c6_empty_status_witness :
    pyFind (errEnvelope 0 (ascii "6:resultlee")) (ascii "li2") 18 = none ∧
    stat (errEnvelope 0 (ascii "6:resultlee")) = some ((0, "success"), _clear, false) :=
  ⟨by decide, c6_empty_status (ascii "6:resultlee") (by decide)⟩

/-- C7: `drop`, `start` and `stop` called with zero torrent arguments raise
the argument-count `TypeError` before anything is sent: the trace of bodies
handed to the transport is empty, whatever responses the daemon would have
provided. -/
theorem c7_zero_args_raise (responses : List (List Nat)) :
    drop [] responses = (.error "drop() takes exactly 2 arguments (1 given)", []) ∧
    start [] responses = (.error "start() takes exactly 2 arguments (1 given)", []) ∧
    stop [] responses = (.error "stop() takes exactly 2 arguments (1 given)", []) :=
  ⟨rfl, rfl, rfl⟩

theorem c7_zero_args_raise_witness :
    drop [] [] = (.error "drop() takes exactly 2 arguments (1 given)", []) ∧
    start [] [] = (.error "start() takes exactly 2 arguments (1 given)", []) ∧
    stop [] [] = (.error "stop() takes exactly 2 arguments (1 given)", []) :=
  c7_zero_args_raise []

/-- C8: framing round-trips — `_send` writes a 4-byte native-endian length
prefix holding the body length followed by the body, and re-decoding that
prefix and reading exactly that many bytes reconstructs the original body. -/
theorem c8_framing_roundtrip (body : List Nat) (h : body.length < 2147483648) :
    recvFrame (sendFrame body) = some ((body.length : Int), body) := by
  rw [sendFrame, recvFrame]
  have ht : (pack4 body.length ++ body).take 4 = pack4 body.length := by
    rw [show (4 : Nat) = (pack4 body.length).length from rfl, List.take_left]
  have hd : (pack4 body.length ++ body).drop 4 = body := by
    rw [show (4 : Nat) = (pack4 body.length).length from rfl, List.drop_left]
  rw [ht, hd, unpack4_pack4 body.length h]
  simp [Int.toNat_ofNat, List.take_length]

theorem c8_framing_roundtrip_witness :
    (ascii "l4:stopi3ee").length < 2147483648 ∧
    recvFrame (sendFrame (ascii "l4:stopi3ee")) =
      some (((ascii "l4:stopi3ee").length : Int), ascii "l4:stopi3ee") :=
  ⟨by decide, c8_framing_roundtrip (ascii "l4:stopi3ee") (by decide)⟩

/-- C9: the decoder renders a raw hash segment via `hexlify` as the
lowercase hexadecimal string of its bytes (two digits per byte, matching
the spec-side rendering through `Nat.digitChar`); in particular the 20-byte
segment 0x00..0x13 decodes to the expected lowercase hex string. -/
theorem c9_hash_lowercase_hex :
    (∀ l : List Nat, (∀ b ∈ l, b < 256) → hexlify l = ascii (specHexString l)) ∧
    hexlify (List.range 20) = ascii "000102030405060708090a0b0c0d0e0f10111213" := by
  constructor
  · intro l hl
    induction l with
    | nil => rfl
    | cons b t ih =>
      have hb : b < 256 := hl b (List.mem_cons_self b t)
      have ht := ih (fun x hx => hl x (List.mem_cons_of_mem b hx))
      calc hexlify (b :: t)
          = hexDigit (b / 16) :: hexDigit (b % 16) :: hexlify t := rfl
        _ = (Nat.digitChar (b / 16)).toNat :: (Nat.digitChar (b % 16)).toNat ::
              ascii (specHexString t) := by
            rw [hexDigit_digitChar (b / 16) (by omega),
              hexDigit_digitChar (b % 16) (by omega), ht]
        _ = ascii (specHexString (b :: t)) := rfl
  · decide

theorem c9_hash_lowercase_hex_witness :
    (∀ b ∈ [0, 171, 255], b < 256) ∧
    hexlify [0, 171, 255] = ascii (specHexString [0, 171, 255]) :=
  ⟨by decide, c9_hash_lowercase_hex.1 [0, 171, 255] (by decide)⟩

/-- C10: whatever response a status query processes, the snapshot it
returns has an empty `uped` column — the scanner appends to the 15 other
columns exactly once per decoded record and never to `uped` — so the 15
columns stay aligned with the record count and `get_data` on the %u tag
yields an empty column. -/
theorem c10_uped_never_appended (m : List Nat) (e : Int × String) (d : DataT)
    (inv : Bool) (h : stat m = some (e, d, inv)) :
    d.uped = [] ∧ columnsAligned d ∧ get_data d ["%u"] = some [[]] := by
  have ha := stat_aligned m e d inv h
  refine ⟨ha.1, ha, ?_⟩
  have : get_data d ["%u"] = some [d.uped] := rfl
  rw [this, ha.1]

theorem c10_uped_never_appended_witness :
    stat (errEnvelope 0 []) = some ((0, "success"), _clear, false) ∧
    (_clear.uped = [] ∧ columnsAligned _clear ∧ get_data _clear ["%u"] = some [[]]) :=
  ⟨by decide, c10_uped_never_appended (errEnvelope 0 []) (0, "success") _clear false
    (by decide)⟩
